import Mathlib

/-!
# Verification of the uFAT formatting module (`src/ufat_mkfs.c`)

Shallow embedding of the layout calculator, FAT table initializers, boot
sector (BPB) encoder, FSInfo encoder and the `ufat_mkfs` orchestrator,
together with theorems settling the specification claims.

Integer widths: `ufat.h` is not part of the sources under `src/`.
Modelled from the spec: the device block count (`ufat_block_t`) is an
unsigned 64-bit integer ("unsigned, potentially exceeding what a 32-bit
on-disk field can express"), cluster counts (`ufat_cluster_t`) and the
C `uint32_t` / `unsigned int` intermediates are unsigned 32-bit integers.
Unsigned wrap-around is made explicit with `% 2^32` / `% 2^64` (`sub32`,
`sub64`) exactly where the C arithmetic can wrap.
-/

set_option maxRecDepth 8000

namespace Ufat

/-- `UINT32_MAX`. -/
def U32MAX : Nat := 4294967295

/-- `UINT16_MAX`. -/
def U16MAX : Nat := 65535

/-- Modulus of 32-bit unsigned arithmetic. -/
def W32 : Nat := 2 ^ 32

/-- Modulus of 64-bit unsigned arithmetic. -/
def W64 : Nat := 2 ^ 64

/-- 64-bit unsigned subtraction `a - b` with wrap-around (two's complement). -/
def sub64 (a b : Nat) : Nat := (W64 + a % W64 - b % W64) % W64

/-- 32-bit unsigned subtraction `a - b` with wrap-around (two's complement). -/
def sub32 (a b : Nat) : Nat := (W32 + a % W32 - b % W32) % W32

/-- `ufat_fat_type_t`: the three FAT variants. -/
inductive UfatFatType
  | UFAT_TYPE_FAT12
  | UFAT_TYPE_FAT16
  | UFAT_TYPE_FAT32
deriving DecidableEq

export UfatFatType (UFAT_TYPE_FAT12 UFAT_TYPE_FAT16 UFAT_TYPE_FAT32)

/-- The error kinds returned by this module: `-UFAT_ERR_BLOCK_SIZE` and
`-UFAT_ERR_IO` in the C source (the second constructor is named
`errDeviceFailure` here). -/
inductive UfatError
  | errBlockSize
  | errDeviceFailure
deriving DecidableEq

/-- `MEDIA_DISK` (the media descriptor byte for fixed disks). -/
def MEDIA_DISK : Nat := 0xf8

/-- `BUF_BLOCK_SIZE`: size in bytes of the stack buffer used by every writer. -/
def BUF_BLOCK_SIZE : Nat := 1024

/-- `BACKUP_SECTOR`. -/
def BACKUP_SECTOR : Nat := 6

/-- `FSINFO_SECTOR`. -/
def FSINFO_SECTOR : Nat := 1

/-- `struct fs_layout`: the derived geometry record. -/
structure fs_layout where
  log2_sector_size : Nat
  log2_bpc : Nat
  reserved_blocks : Nat
  root_blocks : Nat
  fat_blocks : Nat
  logical_blocks : Nat
  clusters : Nat
  type : UfatFatType
deriving DecidableEq

/-- `bytes_to_blocks`: round a byte count up to whole blocks.  The C sum is
computed in 32-bit `unsigned` arithmetic before widening, hence `% W32`. -/
def bytes_to_blocks (log2_block_size bytes : Nat) : Nat :=
  ((bytes + (1 <<< log2_block_size) - 1) % W32) >>> log2_block_size

/-- Initial sectors-per-block exponent: minimum sector size is 512 B but the
sector cannot be smaller than a block (`log2_bps` initialisation). -/
def log2_bps_init (log2_block_size : Nat) : Nat :=
  if log2_block_size < 9 then 9 - log2_block_size else 0

/-- The `while` loop growing the sector size until the total logical sector
count fits in 32 bits (fuel-indexed; the guard `log2_block_size + bps < 12`
bounds the iteration count by 12, so fuel 12 is exact). -/
def bpsLoop (nblk log2_block_size : Nat) : Nat → Nat → Nat
  | 0, bps => bps
  | fuel + 1, bps =>
    if log2_block_size + bps < 12 ∧ nblk >>> bps > U32MAX then
      bpsLoop nblk log2_block_size fuel (bps + 1)
    else bps

/-- Final sectors-per-block exponent chosen by `calculate_layout`. -/
def log2_bps_of (nblk log2_block_size : Nat) : Nat :=
  bpsLoop nblk log2_block_size 12 (log2_bps_init log2_block_size)

/-- "If we still can't fit it, we'll have to chop the device":
`nblk = (ufat_block_t)UINT32_MAX << log2_bps`. -/
def nblk_chopped (nblk log2_block_size : Nat) : Nat :=
  if nblk >>> log2_bps_of nblk log2_block_size > U32MAX then
    U32MAX <<< log2_bps_of nblk log2_block_size
  else nblk

/-- `nsect`: total logical sector count, stored in a `uint32_t`. -/
def nsect_of (nblk log2_block_size : Nat) : Nat :=
  (nblk_chopped nblk log2_block_size >>> log2_bps_of nblk log2_block_size) % W32

/-- FAT type classification from the total logical sector count
(thresholds from fatgen103). -/
def classify_fat_type (nsect : Nat) : UfatFatType :=
  if nsect < 8400 then UFAT_TYPE_FAT12
  else if nsect < 1048576 then UFAT_TYPE_FAT16
  else UFAT_TYPE_FAT32

/-- `clusters_threshold` per FAT type. -/
def clusters_threshold_of : UfatFatType → Nat
  | UFAT_TYPE_FAT12 => 1 <<< 12
  | UFAT_TYPE_FAT16 => 1 <<< 16
  | UFAT_TYPE_FAT32 => 2097152

/-- Initial sectors-per-cluster exponent per FAT type (`log2_spc`). -/
def log2_spc_init : UfatFatType → Nat
  | UFAT_TYPE_FAT32 => 3
  | _ => 1

/-- The `while` loop doubling the cluster size while the projected cluster
count is above the threshold (fuel-indexed; the guard `spc < 7` bounds the
iteration count by 7, so fuel 7 is exact). -/
def spcLoop (nsect log2_sector_size thr : Nat) : Nat → Nat → Nat
  | 0, spc => spc
  | fuel + 1, spc =>
    if spc < 7 ∧ log2_sector_size + spc < 15 ∧ nsect >>> spc > thr then
      spcLoop nsect log2_sector_size thr fuel (spc + 1)
    else spc

/-- Final sectors-per-cluster exponent chosen by `calculate_layout`. -/
def log2_spc_of (nblk log2_block_size : Nat) : Nat :=
  let nsect := nsect_of nblk log2_block_size
  let t := classify_fat_type nsect
  spcLoop nsect (log2_block_size + log2_bps_of nblk log2_block_size)
    (clusters_threshold_of t) 7 (log2_spc_init t)

/-- Blocks-per-cluster exponent (`fl->log2_bpc`). -/
def log2_bpc_of (nblk log2_block_size : Nat) : Nat :=
  log2_bps_of nblk log2_block_size + log2_spc_of nblk log2_block_size

/-- `reserved_sectors`: 1 for FAT12/16, 32 for FAT32. -/
def reserved_sectors_of (t : UfatFatType) : Nat :=
  if t = UFAT_TYPE_FAT32 then 32 else 1

/-- `fl->reserved_blocks = reserved_sectors << log2_bps`. -/
def reserved_blocks_of (nblk log2_block_size : Nat) : Nat :=
  reserved_sectors_of (classify_fat_type (nsect_of nblk log2_block_size)) <<<
    log2_bps_of nblk log2_block_size

/-- `est_clusters`: upper-bound estimate of the cluster count
(64-bit subtraction, then narrowed into a `ufat_cluster_t`). -/
def est_clusters_of (nblk log2_block_size : Nat) : Nat :=
  ((sub64 (nblk_chopped nblk log2_block_size) (reserved_blocks_of nblk log2_block_size) >>>
    log2_bpc_of nblk log2_block_size) + 2) % W32

/-- `fat_bytes`: byte size of one FAT copy, computed from the estimate at the
type's entry width (FAT12 packs two entries into three bytes), in `uint32_t`
arithmetic. -/
def fat_bytes_of (nblk log2_block_size : Nat) : Nat :=
  let e := est_clusters_of nblk log2_block_size
  match classify_fat_type (nsect_of nblk log2_block_size) with
  | UFAT_TYPE_FAT32 => (e <<< 2) % W32
  | UFAT_TYPE_FAT16 => (e <<< 1) % W32
  | UFAT_TYPE_FAT12 => ((e * 3 + 1) % W32) >>> 1

/-- `fl->fat_blocks`. -/
def fat_blocks_of (nblk log2_block_size : Nat) : Nat :=
  bytes_to_blocks log2_block_size (fat_bytes_of nblk log2_block_size)

/-- Minimum root directory size: 16 KiB for FAT12/16, none for FAT32. -/
def root_blocks_min_of (nblk log2_block_size : Nat) : Nat :=
  if classify_fat_type (nsect_of nblk log2_block_size) ≠ UFAT_TYPE_FAT32 then
    bytes_to_blocks log2_block_size 16384
  else 0

/-- `fl->clusters`: final cluster count (chain of 64-bit subtractions in the
C source order, shifted, `+ 2`, narrowed into a `ufat_cluster_t`). -/
def clusters_of (nblk log2_block_size : Nat) : Nat :=
  ((sub64
      (sub64
        (sub64 (nblk_chopped nblk log2_block_size)
          (reserved_blocks_of nblk log2_block_size))
        (root_blocks_min_of nblk log2_block_size))
      (fat_blocks_of nblk log2_block_size * 2) >>>
    log2_bpc_of nblk log2_block_size) + 2) % W32

/-- `fl->root_blocks` after the FAT12/16 expansion step (the data-region size
`(fl->clusters - 2) << fl->log2_bpc` is computed in 32-bit `unsigned`
arithmetic before the 64-bit subtraction). -/
def root_blocks_of (nblk log2_block_size : Nat) : Nat :=
  if classify_fat_type (nsect_of nblk log2_block_size) ≠ UFAT_TYPE_FAT32 then
    sub64
      (sub64
        (sub64 (nblk_chopped nblk log2_block_size)
          (reserved_blocks_of nblk log2_block_size))
        (fat_blocks_of nblk log2_block_size * 2))
      ((sub32 (clusters_of nblk log2_block_size) 2 <<<
        log2_bpc_of nblk log2_block_size) % W32)
  else root_blocks_min_of nblk log2_block_size

/-- `fl->logical_blocks`: block count exactly fitting the filesystem
(the data-region term again in 32-bit arithmetic, the sum in 64-bit). -/
def logical_blocks_of (nblk log2_block_size : Nat) : Nat :=
  (((sub32 (clusters_of nblk log2_block_size) 2 <<<
      log2_bpc_of nblk log2_block_size) % W32) +
    fat_blocks_of nblk log2_block_size * 2 +
    reserved_blocks_of nblk log2_block_size +
    root_blocks_of nblk log2_block_size) % W64

/-- `calculate_layout`: the Layout Calculator.  Rejects block sizes above
4096 B (`log2 > 12`); otherwise assembles the `fs_layout` record. -/
def calculate_layout (nblk log2_block_size : Nat) : Except UfatError fs_layout :=
  if log2_block_size > 12 then .error .errBlockSize
  else .ok {
    log2_sector_size := log2_block_size + log2_bps_of nblk log2_block_size
    log2_bpc := log2_bpc_of nblk log2_block_size
    reserved_blocks := reserved_blocks_of nblk log2_block_size
    root_blocks := root_blocks_of nblk log2_block_size
    fat_blocks := fat_blocks_of nblk log2_block_size
    logical_blocks := logical_blocks_of nblk log2_block_size
    clusters := clusters_of nblk log2_block_size
    type := classify_fat_type (nsect_of nblk log2_block_size) }

/-! ## FAT table initializers (`init_fat12` / `init_fat16` / `init_fat32`)

Each FAT copy is generated block by block into a zeroed buffer; the
entry-position state (`minor_byte`/`cluster_pair` for FAT12, the entry
index `c` for FAT16/32) starts at zero at the beginning of a copy and
advances once per byte / per 2 bytes / per 4 bytes, uninterrupted across
block boundaries, and is fully reset when `block == fl->fat_blocks`.
Hence the byte at offset `o` of a copy is produced with
`minor_byte = o % 3`, `cluster_pair = o / 3` (FAT12) resp. entry index
`c = o / 2` (FAT16) or `c = o / 4` (FAT32), and the first-block override
lands at the fixed offsets 0..2 / 0..3 / 0..11 of the copy.  The functions
below give the byte at each copy offset under that correspondence
(assuming a block holds at least the overridden bytes, true for every
power-of-two block size ≥ 16 and in particular for all real devices). -/

/-- Byte `i` of the little-endian encoding of `v` (as stored by `w16`/`w32`
or by the byte-wise `pair_data >> (minor_byte << 3)` stores). -/
def le_byte (v i : Nat) : Nat := (v >>> (8 * i)) % 256

/-- `pair_data` chosen by `init_fat12` for cluster pair `pair`: both 12-bit
entries out of range, only the upper entry out of range, or in range. -/
def fat12_pair_data (clusters pair : Nat) : Nat :=
  if pair <<< 1 ≥ clusters then 0xff7ff7
  else if (pair <<< 1) + 1 ≥ clusters then 0xff7000
  else 0

/-- Byte at offset `o` of one initialized FAT12 copy (first-block override:
`buf[0] = MEDIA_DISK; buf[1] = 0x8f; buf[2] = 0xff`). -/
def fat12_copy_byte (clusters o : Nat) : Nat :=
  if o = 0 then MEDIA_DISK
  else if o = 1 then 0x8f
  else if o = 2 then 0xff
  else le_byte (fat12_pair_data clusters (o / 3)) (o % 3)

/-- The byte stream of a FAT12 copy exactly as the `init_fat12` loop emits
it: one byte per step (`buf[j] = pair_data >> (minor_byte << 3)`), with the
`minor_byte` (0,1,2) and `cluster_pair` counters threaded between steps and
advanced as in the source (`if (++minor_byte >= 3) { minor_byte = 0;
cluster_pair++; }`).  `fat12_copy_byte` above is the closed form of this
stream from the state (0, 0); the equivalence is proved below
(`fat12_byte_stream_eq_copy_byte`). -/
def fat12_byte_stream (clusters : Nat) : Nat → Nat × Nat → List Nat
  | 0, _ => []
  | n + 1, (minor_byte, cluster_pair) =>
    ((fat12_pair_data clusters cluster_pair >>> (8 * minor_byte)) % 256) ::
      fat12_byte_stream clusters n
        (if minor_byte + 1 ≥ 3 then (0, cluster_pair + 1)
         else (minor_byte + 1, cluster_pair))

/-- 16-bit value the `init_fat16` entry loop leaves at entry index `e`
(`0xfff7` past the cluster count, zero from the `memset` otherwise). -/
def fat16_entry_raw (clusters e : Nat) : Nat :=
  if e ≥ clusters then 0xfff7 else 0

/-- Byte at offset `o` of one initialized FAT16 copy (first-block override:
`w16(buf, 0xff00 | MEDIA_DISK); w16(buf + 2, 0xfff8)`). -/
def fat16_copy_byte (clusters o : Nat) : Nat :=
  if o < 2 then le_byte 0xfff8 o  -- 0xff00 | MEDIA_DISK = 0xfff8
  else if o < 4 then le_byte 0xfff8 (o - 2)
  else le_byte (fat16_entry_raw clusters (o / 2)) (o % 2)

/-- 32-bit value the `init_fat32` entry loop leaves at entry index `e`. -/
def fat32_entry_raw (clusters e : Nat) : Nat :=
  if e ≥ clusters then 0xfffffff7 else 0

/-- Byte at offset `o` of one initialized FAT32 copy (first-block override:
`w32(buf + 0, 0xffffff00 | MEDIA_DISK); w32(buf + 4, 0xfffffff8);
w32(buf + 8, 0xfffffff8)`). -/
def fat32_copy_byte (clusters o : Nat) : Nat :=
  if o < 4 then le_byte 0xfffffff8 o  -- 0xffffff00 | MEDIA_DISK = 0xfffffff8
  else if o < 8 then le_byte 0xfffffff8 (o - 4)
  else if o < 12 then le_byte 0xfffffff8 (o - 8)
  else le_byte (fat32_entry_raw clusters (o / 4)) (o % 4)

/-- Decode 12-bit FAT entry `e` from the packed byte stream of a FAT12 copy
(standard FAT12 packing: two entries per three bytes). -/
def fat12_entry (clusters e : Nat) : Nat :=
  if e % 2 = 0 then
    fat12_copy_byte clusters (3 * (e / 2)) +
      (fat12_copy_byte clusters (3 * (e / 2) + 1) % 16) * 256
  else
    fat12_copy_byte clusters (3 * (e / 2) + 1) / 16 +
      fat12_copy_byte clusters (3 * (e / 2) + 2) * 16

/-- Decode 16-bit little-endian FAT entry `e` from a FAT16 copy. -/
def fat16_entry (clusters e : Nat) : Nat :=
  fat16_copy_byte clusters (2 * e) + fat16_copy_byte clusters (2 * e + 1) * 256

/-- Decode 32-bit little-endian FAT entry `e` from a FAT32 copy. -/
def fat32_entry (clusters e : Nat) : Nat :=
  fat32_copy_byte clusters (4 * e) +
    fat32_copy_byte clusters (4 * e + 1) * 256 +
    fat32_copy_byte clusters (4 * e + 2) * 65536 +
    fat32_copy_byte clusters (4 * e + 3) * 16777216

/-- Follows the spec's words only (for comparison with the code): "entry 1
always encodes the type's maximum end-of-chain value" — the end-of-chain
marker range being 0xFF8–0xFFF / 0xFFF8–0xFFFF / 0x0FFFFFF8–0x0FFFFFFF,
its maximum is 0xFFF / 0xFFFF / 0x0FFFFFFF. -/
def specMaxEndOfChain : UfatFatType → Nat
  | UFAT_TYPE_FAT12 => 0xfff
  | UFAT_TYPE_FAT16 => 0xffff
  | UFAT_TYPE_FAT32 => 0x0fffffff

/-! ## Boot sector / BPB encoder (`write_bpb`) and FSInfo encoder

The block-sized buffer is a function from byte offset to byte value,
built by the same sequence of stores as the C code.  The stack buffer is
`BUF_BLOCK_SIZE` bytes; only its first `block_size` bytes are cleared by
`memset`, so bytes past `block_size` keep their unspecified initial
content, modelled by the parameter `init`. -/

/-- `buf[a] = v` (a single byte store). -/
def setB (f : Nat → Nat) (a v : Nat) : Nat → Nat :=
  fun o => if o = a then v else f o

/-- `w16(buf + a, v)`: little-endian 16-bit store.  Modelled from the spec:
the byte-packing primitives of `ufat_internal.h` are external collaborators
"for writing little-endian 16-bit/32-bit integers into a buffer at an
offset"; the argument is narrowed to the field width. -/
def w16 (f : Nat → Nat) (a v : Nat) : Nat → Nat :=
  setB (setB f a (le_byte (v % 65536) 0)) (a + 1) (le_byte (v % 65536) 1)

/-- `w32(buf + a, v)`: little-endian 32-bit store (see `w16`). -/
def w32 (f : Nat → Nat) (a v : Nat) : Nat → Nat :=
  setB (setB (setB (setB f a (le_byte (v % W32) 0)) (a + 1) (le_byte (v % W32) 1))
    (a + 2) (le_byte (v % W32) 2)) (a + 3) (le_byte (v % W32) 3)

/-- `memset(buf + a, v, n)`. -/
def setRange (f : Nat → Nat) (a n v : Nat) : Nat → Nat :=
  fun o => if a ≤ o ∧ o < a + n then v else f o

/-- `memcpy(buf + a, l, l.length)`. -/
def copyList (f : Nat → Nat) (a : Nat) (l : List Nat) : Nat → Nat :=
  fun o => if a ≤ o ∧ o < a + l.length then l.getD (o - a) 0 else f o

/-- `boot_header`: jmp $, nop, "ufat    ". -/
def boot_header : List Nat :=
  [0xeb, 0xfe, 0x90, 0x75, 0x66, 0x61, 0x74, 0x20, 0x20, 0x20, 0x20]

/-- `type_name`: the 8-character ASCII type label. -/
def type_name : UfatFatType → List Nat
  | UFAT_TYPE_FAT12 => [0x46, 0x41, 0x54, 0x31, 0x32, 0x20, 0x20, 0x20]
  | UFAT_TYPE_FAT16 => [0x46, 0x41, 0x54, 0x31, 0x36, 0x20, 0x20, 0x20]
  | UFAT_TYPE_FAT32 => [0x46, 0x41, 0x54, 0x33, 0x32, 0x20, 0x20, 0x20]

/-- The boot-sector buffer built by `write_bpb`, as a byte-offset → value
function (store sequence in source order; `log2_bps` and the shift counts
are 32-bit unsigned differences as in the C). -/
def write_bpb_buf (fl : fs_layout) (log2_block_size : Nat) (init : Nat → Nat) :
    Nat → Nat :=
  let log2_bps := sub32 fl.log2_sector_size log2_block_size
  let block_size := 1 <<< log2_block_size
  let b0 : Nat → Nat := fun o => if o < block_size then 0 else init o
  let b1 := copyList b0 0 boot_header
  let b2 := setB b1 0x1fe 0x55
  let b3 := setB b2 0x1ff 0xaa
  let b4 := w16 b3 0x00b (1 <<< fl.log2_sector_size)
  let b5 := setB b4 0x00d ((1 <<< sub32 fl.log2_bpc log2_bps) % 256)
  let b6 := w16 b5 0x00e (fl.reserved_blocks <<< log2_bps)
  let b7 := setB b6 0x010 2
  let b8 := w16 b7 0x011 (fl.root_blocks <<< sub32 log2_block_size 5)
  let b9 := if fl.type ≠ UFAT_TYPE_FAT32 ∧ fl.logical_blocks ≤ U16MAX then
      w16 b8 0x013 (fl.logical_blocks <<< log2_bps)
    else
      w32 b8 0x020 (fl.logical_blocks <<< log2_bps)
  let b10 := setB b9 0x015 MEDIA_DISK
  if fl.type ≠ UFAT_TYPE_FAT32 then
    let c1 := w16 b10 0x016 (fl.fat_blocks <<< log2_bps)
    let c2 := setB c1 0x026 0x29
    let c3 := setRange c2 0x02b 11 0x20
    copyList c3 0x036 (type_name fl.type)
  else
    let c1 := w32 b10 0x024 (fl.fat_blocks <<< log2_bps)
    let c2 := w32 c1 0x02c 2
    let c3 := w16 c2 0x030 1
    let c4 := w16 c3 0x032 BACKUP_SECTOR
    let c5 := setB c4 0x042 0x29
    let c6 := setRange c5 0x047 11 0x20
    copyList c6 0x052 (type_name fl.type)

/-- Little-endian 16-bit read from a buffer (a reference FAT parser's view
of a BPB field). -/
def parse16 (f : Nat → Nat) (a : Nat) : Nat := f a + 256 * f (a + 1)

/-- The FSInfo buffer built by `write_fsinfo`. -/
def write_fsinfo_buf (fl : fs_layout) (log2_block_size : Nat) (init : Nat → Nat) :
    Nat → Nat :=
  let block_size := 1 <<< log2_block_size
  let b0 : Nat → Nat := fun o => if o < block_size then 0 else init o
  let b1 := w32 b0 0x000 0x41615252
  let b2 := w32 b1 0x1e4 0x61417272
  let b3 := w32 b2 0x1e8 (sub32 fl.clusters 3)
  let b4 := w32 b3 0x1ec 2
  w32 b4 0x1fc 0xaa550000

/-! ## Orchestrator (`ufat_mkfs`)

The device is abstracted by a success oracle `ok : Nat → Bool` on the
sequence number of the issued write (`dev->write(...) < 0` means the
oracle answers `false`).  The orchestrator computes the layout, then
issues the fixed sequence of block writes; the trace of issued writes
(their target block indices, in order) is returned alongside the result,
and the sequence aborts at the first failed write. -/

/-- Target blocks of `erase_blocks(dev, start, count)`. -/
def erase_targets (start count : Nat) : List Nat :=
  (List.range count).map (start + ·)

/-- Target blocks of the whole `ufat_mkfs` write sequence, in issue order:
erase reserved region, the 2 × `fat_blocks` FAT writes, root area
(region for FAT12/16, the root cluster's blocks for FAT32), FSInfo and its
backup (FAT32), the boot sector, and its backup (FAT32). -/
def mkfs_targets (fl : fs_layout) (log2_block_size : Nat) : List Nat :=
  let log2_bps := sub32 fl.log2_sector_size log2_block_size
  erase_targets 0 fl.reserved_blocks ++
  erase_targets fl.reserved_blocks (fl.fat_blocks * 2) ++
  (if fl.type = UFAT_TYPE_FAT32 then
    erase_targets (fl.fat_blocks * 2 + fl.reserved_blocks + fl.root_blocks)
      (1 <<< fl.log2_bpc)
  else
    erase_targets (fl.fat_blocks * 2 + fl.reserved_blocks) fl.root_blocks) ++
  (if fl.type = UFAT_TYPE_FAT32 then
    [FSINFO_SECTOR >>> log2_bps, (FSINFO_SECTOR + BACKUP_SECTOR) >>> log2_bps]
  else []) ++
  [0] ++
  (if fl.type = UFAT_TYPE_FAT32 then [BACKUP_SECTOR >>> log2_bps] else [])

/-- Issue the writes in order; abort with an I/O error at the first failure.
Returns the result and the trace of issued writes. -/
def run_writes (ok : Nat → Bool) : List Nat → Nat → Except UfatError Unit × List Nat
  | [], _ => (.ok (), [])
  | w :: rest, n =>
    if ok n then
      let r := run_writes ok rest (n + 1)
      (r.1, w :: r.2)
    else (.error .errDeviceFailure, [w])

/-- `ufat_mkfs`: compute the layout, then run the write sequence.  On a
layout error nothing is written. -/
def ufat_mkfs (ok : Nat → Bool) (nblk log2_block_size : Nat) :
    Except UfatError Unit × List Nat :=
  match calculate_layout nblk log2_block_size with
  | .error e => (.error e, [])
  | .ok fl => run_writes ok (mkfs_targets fl log2_block_size) 0

/-! ## Concrete layouts used by the claim theorems (values of
`calculate_layout` at the inputs named in the claims). -/

/-- `calculate_layout 8000 9` (512-byte blocks, 8000 blocks). -/
def fl8000 : fs_layout :=
  { log2_sector_size := 9, log2_bpc := 1, reserved_blocks := 1,
    root_blocks := 33, fat_blocks := 12, logical_blocks := 8000,
    clusters := 3973, type := UFAT_TYPE_FAT12 }

/-- `calculate_layout 16000 8` (256-byte blocks, 16000 blocks). -/
def fl16000 : fs_layout :=
  { log2_sector_size := 9, log2_bpc := 2, reserved_blocks := 2,
    root_blocks := 66, fat_blocks := 24, logical_blocks := 16000,
    clusters := 3973, type := UFAT_TYPE_FAT12 }

/-- `calculate_layout 1000 10` (1024-byte blocks, 1000 blocks). -/
def fl1000 : fs_layout :=
  { log2_sector_size := 10, log2_bpc := 1, reserved_blocks := 1,
    root_blocks := 17, fat_blocks := 1, logical_blocks := 1000,
    clusters := 492, type := UFAT_TYPE_FAT12 }

/-- `calculate_layout 0 9` (a zero-block device: the size subtractions in
`calculate_layout` wrap around). -/
def fl0 : fs_layout :=
  { log2_sector_size := 9, log2_bpc := 1, reserved_blocks := 1,
    root_blocks := 18446744069414584353, fat_blocks := 1,
    logical_blocks := 0, clusters := 4294967280, type := UFAT_TYPE_FAT12 }

/-- `calculate_layout 31 9` (a 31-block device with 512-byte blocks: the
final-cluster subtraction wraps, and the 32-bit narrowing of
`ufat_cluster_t` leaves a cluster count of 0). -/
def fl31 : fs_layout :=
  { log2_sector_size := 9, log2_bpc := 1, reserved_blocks := 1,
    root_blocks := 18446744069414584352, fat_blocks := 1,
    logical_blocks := 31, clusters := 0, type := UFAT_TYPE_FAT12 }

/-! ## Helper lemmas -/

theorem type_name_length (t : UfatFatType) : (type_name t).length = 8 := by
  cases t <;> rfl

theorem sub64_exact (a b : Nat) (hba : b ≤ a) (ha : a < W64) : sub64 a b = a - b := by
  unfold sub64 W64 at *
  omega

theorem sub32_exact (a b : Nat) (hba : b ≤ a) (ha : a < W32) : sub32 a b = a - b := by
  unfold sub32 W32 at *
  omega

theorem bpsLoop_le (nblk lbs : Nat) :
    ∀ fuel bps, bps ≤ 12 → bpsLoop nblk lbs fuel bps ≤ 12 := by
  intro fuel
  induction fuel with
  | zero => intro bps h; exact h
  | succ n ih =>
    intro bps h
    unfold bpsLoop
    split
    · exact ih (bps + 1) (by omega)
    · exact h

theorem log2_bps_le (nblk lbs : Nat) : log2_bps_of nblk lbs ≤ 12 := by
  unfold log2_bps_of log2_bps_init
  apply bpsLoop_le
  split <;> omega

theorem spcLoop_ge (nsect lss thr : Nat) :
    ∀ fuel spc, spc ≤ spcLoop nsect lss thr fuel spc := by
  intro fuel
  induction fuel with
  | zero => intro spc; exact Nat.le_refl spc
  | succ n ih =>
    intro spc
    unfold spcLoop
    split
    · exact le_trans (Nat.le_succ spc) (ih (spc + 1))
    · exact Nat.le_refl spc

theorem one_le_log2_spc (nblk lbs : Nat) : 1 ≤ log2_spc_of nblk lbs := by
  unfold log2_spc_of
  refine le_trans ?_ (spcLoop_ge _ _ _ 7 _)
  cases classify_fat_type (nsect_of nblk lbs) <;> simp [log2_spc_init]

theorem nblk_chopped_le (nblk lbs : Nat) : nblk_chopped nblk lbs ≤ nblk := by
  unfold nblk_chopped
  split
  · next h =>
    rw [Nat.shiftLeft_eq]
    rw [Nat.shiftRight_eq_div_pow] at h
    calc U32MAX * 2 ^ log2_bps_of nblk lbs
        ≤ (nblk / 2 ^ log2_bps_of nblk lbs) * 2 ^ log2_bps_of nblk lbs :=
          Nat.mul_le_mul_right _ (Nat.le_of_lt h)
      _ ≤ nblk := Nat.div_mul_le_self _ _
  · exact Nat.le_refl nblk

theorem nsect_raw_le_u32 (nblk lbs : Nat) :
    nblk_chopped nblk lbs >>> log2_bps_of nblk lbs ≤ U32MAX := by
  unfold nblk_chopped
  split
  · rw [Nat.shiftLeft_eq, Nat.shiftRight_eq_div_pow]
    rw [Nat.mul_div_cancel _ (Nat.pos_pow_of_pos _ (by norm_num))]
  · next h => exact Nat.le_of_not_lt h

theorem nsect_of_eq (nblk lbs : Nat) :
    nsect_of nblk lbs = nblk_chopped nblk lbs >>> log2_bps_of nblk lbs := by
  unfold nsect_of
  refine Nat.mod_eq_of_lt (lt_of_le_of_lt (nsect_raw_le_u32 nblk lbs) ?_)
  unfold U32MAX W32
  norm_num

theorem calculate_layout_ok_of_le (nblk lbs : Nat) (h : ¬ 12 < lbs) :
    calculate_layout nblk lbs = .ok {
      log2_sector_size := lbs + log2_bps_of nblk lbs
      log2_bpc := log2_bpc_of nblk lbs
      reserved_blocks := reserved_blocks_of nblk lbs
      root_blocks := root_blocks_of nblk lbs
      fat_blocks := fat_blocks_of nblk lbs
      logical_blocks := logical_blocks_of nblk lbs
      clusters := clusters_of nblk lbs
      type := classify_fat_type (nsect_of nblk lbs) } := by
  simp [calculate_layout, h]

/-- The fuel given to `bpsLoop` is sufficient: at the returned exponent the
C loop's guard is false, i.e. the fuel-indexed loop computes the same
result as the unbounded `while` loop. -/
theorem bpsLoop_guard_false (nblk lbs : Nat) :
    ∀ fuel bps, 12 ≤ bps + fuel →
      ¬(lbs + bpsLoop nblk lbs fuel bps < 12 ∧
        nblk >>> bpsLoop nblk lbs fuel bps > U32MAX) := by
  intro fuel
  induction fuel with
  | zero =>
    intro bps h
    unfold bpsLoop
    intro hg
    omega
  | succ n ih =>
    intro bps h
    unfold bpsLoop
    split
    · exact ih (bps + 1) (by omega)
    · next hg => exact hg

/-- The `while` guard of the sector-size loop is false at `log2_bps_of`. -/
theorem log2_bps_of_guard_false (nblk lbs : Nat) :
    ¬(lbs + log2_bps_of nblk lbs < 12 ∧
      nblk >>> log2_bps_of nblk lbs > U32MAX) :=
  bpsLoop_guard_false nblk lbs 12 _ (by omega)

/-- The fuel given to `spcLoop` is sufficient: at the returned exponent the
C loop's guard is false. -/
theorem spcLoop_guard_false (nsect lss thr : Nat) :
    ∀ fuel spc, 7 ≤ spc + fuel →
      ¬(spcLoop nsect lss thr fuel spc < 7 ∧
        lss + spcLoop nsect lss thr fuel spc < 15 ∧
        nsect >>> spcLoop nsect lss thr fuel spc > thr) := by
  intro fuel
  induction fuel with
  | zero =>
    intro spc h
    unfold spcLoop
    intro hg
    omega
  | succ n ih =>
    intro spc h
    unfold spcLoop
    split
    · exact ih (spc + 1) (by omega)
    · next hg => exact hg

/-- The `while` guard of the cluster-size loop is false at `log2_spc_of`. -/
theorem log2_spc_of_guard_false (nblk lbs : Nat) :
    ¬(log2_spc_of nblk lbs < 7 ∧
      (lbs + log2_bps_of nblk lbs) + log2_spc_of nblk lbs < 15 ∧
      nsect_of nblk lbs >>> log2_spc_of nblk lbs >
        clusters_threshold_of (classify_fat_type (nsect_of nblk lbs))) :=
  spcLoop_guard_false (nsect_of nblk lbs) (lbs + log2_bps_of nblk lbs)
    (clusters_threshold_of (classify_fat_type (nsect_of nblk lbs))) 7 _ (by omega)

theorem run_writes_ne_block_size (ok : Nat → Bool) :
    ∀ ws n, (run_writes ok ws n).1 ≠ .error .errBlockSize := by
  intro ws
  induction ws with
  | nil => intro n; simp [run_writes]
  | cons w rest ih =>
    intro n
    simp only [run_writes]
    split
    · exact ih (n + 1)
    · simp

/-! ## Claim theorems -/

/-- Claim C2 (code bug): `calculate_layout` accepts block sizes of 2048 and
4096 bytes (`log2` 11 and 12), yet the writers' stack buffer is only
`BUF_BLOCK_SIZE = 1024` bytes, so the in-function assertion
`BUF_BLOCK_SIZE >= block_size` is violated for those accepted block sizes
(and the block-sized `memset`s overrun the buffer). -/
theorem claim_C2_buffer_smaller_than_accepted_block :
    (calculate_layout 100 11).isOk = true ∧
    (calculate_layout 100 12).isOk = true ∧
    BUF_BLOCK_SIZE < 1 <<< 11 ∧ BUF_BLOCK_SIZE < 1 <<< 12 :=
  ⟨rfl, rfl, by decide, by decide⟩

/-- Claim C3: the FAT type is a function of the total logical sector count
alone, with the fixed thresholds 8400 and 1048576, and the boundary devices
8399 / 8400 / 1048575 / 1048576 (512-byte blocks, so one block is one
sector) select FAT12 / FAT16 / FAT16 / FAT32 respectively. -/
theorem claim_C3_fat_type_thresholds :
    (∀ nblk lbs : Nat, lbs ≤ 12 →
      (calculate_layout nblk lbs).toOption.map (fun fl => fl.type) =
        some (classify_fat_type (nsect_of nblk lbs))) ∧
    (∀ n : Nat, n < 8400 → classify_fat_type n = UFAT_TYPE_FAT12) ∧
    (∀ n : Nat, 8400 ≤ n → n < 1048576 → classify_fat_type n = UFAT_TYPE_FAT16) ∧
    (∀ n : Nat, 1048576 ≤ n → classify_fat_type n = UFAT_TYPE_FAT32) ∧
    (calculate_layout 8399 9).toOption.map (fun fl => fl.type) = some UFAT_TYPE_FAT12 ∧
    (calculate_layout 8400 9).toOption.map (fun fl => fl.type) = some UFAT_TYPE_FAT16 ∧
    (calculate_layout 1048575 9).toOption.map (fun fl => fl.type) = some UFAT_TYPE_FAT16 ∧
    (calculate_layout 1048576 9).toOption.map (fun fl => fl.type) = some UFAT_TYPE_FAT32 := by
  refine ⟨?_, ?_, ?_, ?_, by decide, by decide, by decide, by decide⟩
  · intro nblk lbs h
    simp [calculate_layout, Nat.not_lt.mpr h, Except.toOption]
  · intro n h
    simp [classify_fat_type, h]
  · intro n h1 h2
    simp [classify_fat_type, h2, Nat.not_lt.mpr h1]
  · intro n h
    have h1 : ¬ n < 8400 := by omega
    have h2 : ¬ n < 1048576 := by omega
    simp [classify_fat_type, h1, h2]

/-- Witness for C3 at a concrete accepted input. -/
theorem claim_C3_witness :
    (calculate_layout 8000 9).toOption.map (fun fl => fl.type) =
      some (classify_fat_type (nsect_of 8000 9)) :=
  claim_C3_fat_type_thresholds.1 8000 9 (by decide)

/-- Claim C4 (amended): in every initialized FAT copy, entry 0 carries the
media descriptor `0xF8` in its low byte with all higher bits of the entry
set, and entry 1 carries the type's base end-of-chain marker
`0xFF8` / `0xFFF8` / `0xFFFFFFF8` (the smallest end-of-chain value, not the
maximum). -/
theorem claim_C4_reserved_fat_entries (clusters : Nat) :
    fat12_entry clusters 0 = 0xff8 ∧ fat12_entry clusters 1 = 0xff8 ∧
    fat16_entry clusters 0 = 0xfff8 ∧ fat16_entry clusters 1 = 0xfff8 ∧
    fat32_entry clusters 0 = 0xfffffff8 ∧ fat32_entry clusters 1 = 0xfffffff8 ∧
    0xff8 % 256 = MEDIA_DISK ∧ 0xff8 / 256 = 0xf ∧
    0xfff8 % 256 = MEDIA_DISK ∧ 0xfff8 / 256 = 0xff ∧
    0xfffffff8 % 256 = MEDIA_DISK ∧ 0xfffffff8 / 256 = 0xffffff := by
  refine ⟨?_, ?_, ?_, ?_, ?_, ?_, by decide, by decide, by decide, by decide, by decide, by decide⟩ <;>
    norm_num [fat12_entry, fat12_copy_byte, fat16_entry, fat16_copy_byte,
      fat32_entry, fat32_copy_byte, le_byte, MEDIA_DISK] <;> decide

/-- Counterexample for C4 as stated: entry 1 of an initialized FAT is
`0xFF8` / `0xFFF8` / `0xFFFFFFF8`, not the type's maximum end-of-chain
marker value (`0xFFF` / `0xFFFF` / `0x0FFFFFFF`). -/
theorem claim_C4_counterexample :
    fat12_entry 100 1 = 0xff8 ∧
    fat16_entry 100 1 = 0xfff8 ∧
    fat32_entry 100 1 = 0xfffffff8 ∧
    specMaxEndOfChain UFAT_TYPE_FAT16 = 0xffff ∧
    ¬(fat16_entry 100 1 = specMaxEndOfChain UFAT_TYPE_FAT16) ∧
    ¬(fat12_entry 100 1 = specMaxEndOfChain UFAT_TYPE_FAT12) ∧
    ¬(fat32_entry 100 1 = specMaxEndOfChain UFAT_TYPE_FAT32) :=
  ⟨by decide, by decide, by decide, rfl, by decide, by decide, by decide⟩

/-- Claim C1 (code bug): `write_bpb` converts block counts to the BPB's
sector-count fields with `<< log2_bps` where blocks-to-sectors conversion
requires `>> log2_bps`.  On a device with 256-byte blocks (`log2` 8) and
16000 blocks, formatting succeeds, the layout has 1 reserved sector
(2 blocks) and FAT copies of 12 sectors (24 blocks), but the boot sector's
reserved-sector-count field reads back 4 and its FAT-size field reads back
48 — a factor `2^(2*log2_bps)` off the layout's values. -/
theorem claim_C1_bpb_scaling_bug :
    calculate_layout 16000 8 = .ok fl16000 ∧
    parse16 (write_bpb_buf fl16000 8 (fun _ => 0)) 0x00e = 4 ∧
    reserved_sectors_of fl16000.type = 1 ∧
    fl16000.reserved_blocks >>> sub32 fl16000.log2_sector_size 8 = 1 ∧
    parse16 (write_bpb_buf fl16000 8 (fun _ => 0)) 0x016 = 48 ∧
    fl16000.fat_blocks >>> sub32 fl16000.log2_sector_size 8 = 12 ∧
    (4 : Nat) ≠ 1 ∧ (48 : Nat) ≠ 12 :=
  ⟨by rfl, by rfl, by rfl, by decide, by rfl, by decide, by decide, by decide⟩

/-- Claim C10 (amended): the boot-sector buffer always carries the boot
signature `0x55 0xAA` at the fixed byte offsets 510 and 511 (which are the
sector's last two bytes only when the logical sector is 512 bytes). -/
theorem claim_C10_boot_signature (fl : fs_layout) (lbs : Nat) (init : Nat → Nat) :
    write_bpb_buf fl lbs init 0x1fe = 0x55 ∧ write_bpb_buf fl lbs init 0x1ff = 0xaa := by
  constructor <;>
  · simp only [write_bpb_buf]
    split <;>
      simp [copyList, setRange, setB, w16, w32, le_byte, type_name_length] <;>
      split <;>
      simp [copyList, setRange, setB, w16, w32, le_byte]

/-- Counterexample for C10 as stated: on a device with 1024-byte blocks
(logical sector size 1024), the last two bytes of the logical sector
(offsets 1022 and 1023) are zero; the signature sits at offsets 510/511. -/
theorem claim_C10_counterexample :
    calculate_layout 1000 10 = .ok fl1000 ∧
    fl1000.log2_sector_size = 10 ∧
    write_bpb_buf fl1000 10 (fun _ => 0) 0x1fe = 0x55 ∧
    write_bpb_buf fl1000 10 (fun _ => 0) 0x1ff = 0xaa ∧
    write_bpb_buf fl1000 10 (fun _ => 0) (1 <<< 10 - 2) = 0 ∧
    write_bpb_buf fl1000 10 (fun _ => 0) (1 <<< 10 - 1) = 0 ∧
    ¬(write_bpb_buf fl1000 10 (fun _ => 0) (1 <<< 10 - 2) = 0x55 ∧
      write_bpb_buf fl1000 10 (fun _ => 0) (1 <<< 10 - 1) = 0xaa) := by
  refine ⟨by rfl, by rfl, by rfl, by rfl, by rfl, by rfl, ?_⟩
  intro hbad
  have h1 : write_bpb_buf fl1000 10 (fun _ => 0) (1 <<< 10 - 2) = 0 := by rfl
  rw [h1] at hbad
  exact absurd hbad.1 (by decide)

/-- Claim C8 (amended): the cluster-size search starts at 2 sectors per
cluster (`log2_spc = 1`) for FAT12/FAT16 and 8 sectors per cluster
(`log2_spc = 3`) for FAT32, then doubles while the projected cluster count
exceeds the type's ceiling; the 512-byte-block, 8000-block device yields
FAT12 with clusters of 2 sectors (`log2_bpc = 1`), 1 reserved sector, and
a 33-sector root directory (the 16 KiB minimum of 32 sectors expanded by
one leftover sector). -/
theorem claim_C8_cluster_size_search (nblk lbs : Nat) (h : lbs ≤ 12) :
    log2_spc_init UFAT_TYPE_FAT12 = 1 ∧
    log2_spc_init UFAT_TYPE_FAT16 = 1 ∧
    log2_spc_init UFAT_TYPE_FAT32 = 3 ∧
    (calculate_layout nblk lbs).toOption.map (fun fl => fl.log2_bpc) =
      some (log2_bps_of nblk lbs +
        spcLoop (nsect_of nblk lbs) (lbs + log2_bps_of nblk lbs)
          (clusters_threshold_of (classify_fat_type (nsect_of nblk lbs))) 7
          (log2_spc_init (classify_fat_type (nsect_of nblk lbs)))) ∧
    (calculate_layout 8000 9).toOption.map
        (fun fl => (fl.type, fl.log2_bpc, fl.reserved_blocks, fl.root_blocks)) =
      some (UFAT_TYPE_FAT12, 1, 1, 33) := by
  refine ⟨rfl, rfl, rfl, ?_, by decide⟩
  simp [calculate_layout, Nat.not_lt.mpr h, log2_bpc_of, log2_spc_of, Except.toOption]

/-- Witness for C8 at a concrete accepted input. -/
theorem claim_C8_witness :
    (calculate_layout 8000 9).toOption.map (fun fl => fl.log2_bpc) =
      some (log2_bps_of 8000 9 +
        spcLoop (nsect_of 8000 9) (9 + log2_bps_of 8000 9)
          (clusters_threshold_of (classify_fat_type (nsect_of 8000 9))) 7
          (log2_spc_init (classify_fat_type (nsect_of 8000 9)))) :=
  (claim_C8_cluster_size_search 8000 9 (by decide)).2.2.2.1

/-- Counterexample for C8 as stated: the 512-byte-block, 8000-block device
gets 2 sectors per cluster (`log2_bpc = 1`, BPB sectors-per-cluster byte 2)
and a 33-sector root directory, not 1 sector per cluster and 32 sectors. -/
theorem claim_C8_counterexample :
    calculate_layout 8000 9 = .ok fl8000 ∧
    fl8000.log2_bpc = 1 ∧ fl8000.root_blocks = 33 ∧
    write_bpb_buf fl8000 9 (fun _ => 0) 0x00d = 2 ∧
    ¬(fl8000.log2_bpc = 0 ∧ fl8000.root_blocks = 32) :=
  ⟨by rfl, by rfl, by rfl, by rfl, by decide⟩

/-- Claim C9: `ufat_mkfs` returns the block-size error exactly when the
device block size exceeds 4096 bytes (`log2 > 12`); in that case it returns
before issuing any device write (empty write trace), and for any accepted
block size the layout calculation succeeds (its only failure mode is the
block-size check). -/
theorem claim_C9_block_size_error (ok : Nat → Bool) (nblk lbs : Nat) :
    ((ufat_mkfs ok nblk lbs).1 = .error .errBlockSize ↔ 12 < lbs) ∧
    (12 < lbs → (ufat_mkfs ok nblk lbs).2 = []) ∧
    ((calculate_layout nblk lbs).isOk = true ↔ lbs ≤ 12) := by
  by_cases h : 12 < lbs
  · have hc : calculate_layout nblk lbs = .error .errBlockSize := by
      simp [calculate_layout, h]
    refine ⟨?_, fun _ => ?_, ?_⟩
    · simp [ufat_mkfs, hc, h]
    · simp [ufat_mkfs, hc]
    · rw [hc]
      simp [Except.isOk, Except.toBool]
      omega
  · have hc := calculate_layout_ok_of_le nblk lbs h
    constructor
    · rw [iff_false_intro h, iff_false]
      intro hbad
      rw [ufat_mkfs, hc] at hbad
      exact run_writes_ne_block_size ok _ 0 hbad
    · exact ⟨fun hl => absurd hl h, by simp [hc, Except.isOk, Except.toBool]; omega⟩

theorem fat12_copy_byte_raw (cl o : Nat) (h : 3 ≤ o) :
    fat12_copy_byte cl o = le_byte (fat12_pair_data cl (o / 3)) (o % 3) := by
  unfold fat12_copy_byte
  rw [if_neg (by omega), if_neg (by omega), if_neg (by omega)]

theorem fat16_copy_byte_raw (cl o : Nat) (h : 4 ≤ o) :
    fat16_copy_byte cl o = le_byte (fat16_entry_raw cl (o / 2)) (o % 2) := by
  unfold fat16_copy_byte
  rw [if_neg (by omega), if_neg (by omega)]

theorem fat32_copy_byte_raw (cl o : Nat) (h : 12 ≤ o) :
    fat32_copy_byte cl o = le_byte (fat32_entry_raw cl (o / 4)) (o % 4) := by
  unfold fat32_copy_byte
  rw [if_neg (by omega), if_neg (by omega), if_neg (by omega)]

/-- Byte `o` of the state-threaded FAT12 stream started at state `(m, p)`,
`m < 3`, is the byte of pair `(3p + m + o) / 3` at minor position
`(3p + m + o) % 3`. -/
theorem fat12_byte_stream_get (clusters : Nat) :
    ∀ n o m p : Nat, m < 3 → o < n →
      (fat12_byte_stream clusters n (m, p)).get? o =
        some (le_byte (fat12_pair_data clusters ((3 * p + m + o) / 3))
          ((3 * p + m + o) % 3)) := by
  intro n
  induction n with
  | zero =>
    intro o m p hm ho
    exact absurd ho (Nat.not_lt_zero o)
  | succ k ih =>
    intro o m p hm ho
    cases o with
    | zero =>
      simp only [fat12_byte_stream, List.get?]
      have h1 : (3 * p + m + 0) / 3 = p := by omega
      have h2 : (3 * p + m + 0) % 3 = m := by omega
      rw [h1, h2]
      rfl
    | succ j =>
      simp only [fat12_byte_stream, List.get?]
      split
      · next hge =>
        rw [ih j 0 (p + 1) (by omega) (by omega)]
        have he : 3 * (p + 1) + 0 + j = 3 * p + m + (j + 1) := by omega
        rw [he]
      · next hlt =>
        rw [ih j (m + 1) p (by omega) (by omega)]
        have he : 3 * p + (m + 1) + j = 3 * p + m + (j + 1) := by omega
        rw [he]

/-- Validation of the closed form: past the first-block override, the byte
the `init_fat12` loop writes at copy offset `o` is `fat12_copy_byte`. -/
theorem fat12_byte_stream_eq_copy_byte (clusters n o : Nat)
    (h3 : 3 ≤ o) (ho : o < n) :
    (fat12_byte_stream clusters n (0, 0)).get? o =
      some (fat12_copy_byte clusters o) := by
  rw [fat12_byte_stream_get clusters n o 0 0 (by omega) ho]
  rw [fat12_copy_byte_raw clusters o h3]
  have he : 3 * 0 + 0 + o = o := by omega
  rw [he]

theorem fat12_pair_both_out (cl p : Nat) (h : cl ≤ 2 * p) :
    fat12_pair_data cl p = 0xff7ff7 := by
  unfold fat12_pair_data
  rw [if_pos (by rw [Nat.shiftLeft_eq]; omega)]

theorem fat12_pair_upper_out (cl p : Nat) (h1 : 2 * p < cl) (h2 : cl ≤ 2 * p + 1) :
    fat12_pair_data cl p = 0xff7000 := by
  unfold fat12_pair_data
  rw [if_neg (by rw [Nat.shiftLeft_eq]; omega), if_pos (by rw [Nat.shiftLeft_eq]; omega)]

theorem fat12_entry_out_of_range (cl e : Nat) (he : cl ≤ e) (h2 : 2 ≤ e) :
    fat12_entry cl e = 0xff7 := by
  have hp : 1 ≤ e / 2 := by omega
  rcases Nat.mod_two_eq_zero_or_one e with hpar | hpar
  · unfold fat12_entry
    rw [if_pos hpar]
    rw [fat12_copy_byte_raw cl (3 * (e / 2)) (by omega),
      fat12_copy_byte_raw cl (3 * (e / 2) + 1) (by omega)]
    have h3a : 3 * (e / 2) / 3 = e / 2 := by omega
    have h3b : 3 * (e / 2) % 3 = 0 := by omega
    have h3c : (3 * (e / 2) + 1) / 3 = e / 2 := by omega
    have h3d : (3 * (e / 2) + 1) % 3 = 1 := by omega
    rw [h3a, h3b, h3c, h3d, fat12_pair_both_out cl (e / 2) (by omega)]
    decide
  · unfold fat12_entry
    rw [if_neg (by omega)]
    rw [fat12_copy_byte_raw cl (3 * (e / 2) + 1) (by omega),
      fat12_copy_byte_raw cl (3 * (e / 2) + 2) (by omega)]
    have h3c : (3 * (e / 2) + 1) / 3 = e / 2 := by omega
    have h3d : (3 * (e / 2) + 1) % 3 = 1 := by omega
    have h3e : (3 * (e / 2) + 2) / 3 = e / 2 := by omega
    have h3f : (3 * (e / 2) + 2) % 3 = 2 := by omega
    rw [h3c, h3d, h3e, h3f]
    rcases le_or_lt cl (2 * (e / 2)) with hc | hc
    · rw [fat12_pair_both_out cl (e / 2) hc]
      decide
    · rw [fat12_pair_upper_out cl (e / 2) hc (by omega)]
      decide

theorem fat16_entry_out_of_range (cl e : Nat) (he : cl ≤ e) (h2 : 2 ≤ e) :
    fat16_entry cl e = 0xfff7 := by
  unfold fat16_entry
  rw [fat16_copy_byte_raw cl (2 * e) (by omega),
    fat16_copy_byte_raw cl (2 * e + 1) (by omega)]
  have ha : 2 * e / 2 = e := by omega
  have hb : 2 * e % 2 = 0 := by omega
  have hc : (2 * e + 1) / 2 = e := by omega
  have hd : (2 * e + 1) % 2 = 1 := by omega
  rw [ha, hb, hc, hd]
  unfold fat16_entry_raw
  rw [if_pos he]
  decide

theorem fat32_entry_out_of_range (cl e : Nat) (he : cl ≤ e) (h3 : 3 ≤ e) :
    fat32_entry cl e = 0xfffffff7 := by
  unfold fat32_entry
  rw [fat32_copy_byte_raw cl (4 * e) (by omega),
    fat32_copy_byte_raw cl (4 * e + 1) (by omega),
    fat32_copy_byte_raw cl (4 * e + 2) (by omega),
    fat32_copy_byte_raw cl (4 * e + 3) (by omega)]
  have ha : 4 * e / 4 = e := by omega
  have hb : 4 * e % 4 = 0 := by omega
  have hc : (4 * e + 1) / 4 = e := by omega
  have hd : (4 * e + 1) % 4 = 1 := by omega
  have hg : (4 * e + 2) / 4 = e := by omega
  have hh : (4 * e + 2) % 4 = 2 := by omega
  have hi : (4 * e + 3) / 4 = e := by omega
  have hj : (4 * e + 3) % 4 = 3 := by omega
  rw [ha, hb, hc, hd, hg, hh, hi, hj]
  unfold fat32_entry_raw
  rw [if_pos he]
  decide

/-- Claim C5 (amended): in every initialized FAT copy, every entry whose
index is at or beyond the final cluster count *and past the first-block
reserved-entry stores* (indices 0-1 for FAT12/16, 0-2 for FAT32) decodes to
the type's out-of-range sentinel (`0xFF7` / `0xFFF7` / `0xFFFFFFF7`) — with
no lower bound on the cluster count, which the 32-bit `ufat_cluster_t`
narrowing can wrap down to 0 or 1 on tiny devices — and the FAT12 packed
pair distinguishes "both entries out of range" (`pair_data = 0xFF7FF7`)
from "only the upper entry out of range" (`pair_data = 0xFF7000`, the odd
cluster-count case). -/
theorem claim_C5_out_of_range_sentinels :
    (∀ clusters e : Nat, clusters ≤ e → 2 ≤ e → fat12_entry clusters e = 0xff7) ∧
    (∀ clusters e : Nat, clusters ≤ e → 2 ≤ e → fat16_entry clusters e = 0xfff7) ∧
    (∀ clusters e : Nat, clusters ≤ e → 3 ≤ e → fat32_entry clusters e = 0xfffffff7) ∧
    (∀ clusters p : Nat, clusters ≤ 2 * p → fat12_pair_data clusters p = 0xff7ff7) ∧
    (∀ clusters p : Nat, 2 * p < clusters → clusters ≤ 2 * p + 1 →
      fat12_pair_data clusters p = 0xff7000) ∧
    (0xff7ff7 : Nat) ≠ 0xff7000 :=
  ⟨fat12_entry_out_of_range, fat16_entry_out_of_range, fat32_entry_out_of_range,
   fat12_pair_both_out, fat12_pair_upper_out, by decide⟩

/-- Witness for C5 at concrete inputs, including a wrapped cluster count of
0 (the layout of a 31-block, 512-byte-block device), where entry 2 is still
the sentinel. -/
theorem claim_C5_witness :
    fat12_entry 5 7 = 0xff7 ∧ fat16_entry 5 7 = 0xfff7 ∧
    fat32_entry 5 7 = 0xfffffff7 ∧ fat12_entry 0 2 = 0xff7 ∧
    fat12_pair_data 5 3 = 0xff7ff7 ∧ fat12_pair_data 5 2 = 0xff7000 :=
  ⟨claim_C5_out_of_range_sentinels.1 5 7 (by decide) (by decide),
   claim_C5_out_of_range_sentinels.2.1 5 7 (by decide) (by decide),
   claim_C5_out_of_range_sentinels.2.2.1 5 7 (by decide) (by decide),
   claim_C5_out_of_range_sentinels.1 0 2 (by decide) (by decide),
   claim_C5_out_of_range_sentinels.2.2.2.1 5 3 (by decide),
   claim_C5_out_of_range_sentinels.2.2.2.2.1 5 2 (by decide) (by decide)⟩

/-- Counterexample for C5 as stated: a 31-block device with 512-byte blocks
is accepted and gets a FAT12 layout whose cluster count wraps to 0, so
entries 0 and 1 are "at or beyond the final cluster count" — yet the
initialized copy carries the reserved-entry value `0xFF8` there, not the
out-of-range sentinel `0xFF7`. -/
theorem claim_C5_counterexample :
    calculate_layout 31 9 = .ok fl31 ∧
    fl31.clusters = 0 ∧
    fat12_entry fl31.clusters 0 = 0xff8 ∧
    fat12_entry fl31.clusters 1 = 0xff8 ∧
    ¬(fat12_entry fl31.clusters 0 = 0xff7) ∧
    ¬(fat12_entry fl31.clusters 1 = 0xff7) :=
  ⟨by rfl, by rfl, by decide, by decide, by decide, by decide⟩

/-- Witness for C9: block size `2^13` is rejected with the block-size error
and an empty write trace. -/
theorem claim_C9_witness :
    (ufat_mkfs (fun _ => true) 0 13).2 = [] ∧
    (ufat_mkfs (fun _ => true) 0 13).1 = Except.error UfatError.errBlockSize :=
  ⟨(claim_C9_block_size_error (fun _ => true) 0 13).2.1 (by decide),
   (claim_C9_block_size_error (fun _ => true) 0 13).1.mpr (by decide)⟩

theorem div_bpc_add_two_lt (nblk lbs Y : Nat)
    (hY : Y ≤ nblk_chopped nblk lbs) :
    Y >>> log2_bpc_of nblk lbs + 2 < W32 := by
  rw [Nat.shiftRight_eq_div_pow]
  have h2 : nblk_chopped nblk lbs / 2 ^ log2_bpc_of nblk lbs =
      nblk_chopped nblk lbs / 2 ^ log2_bps_of nblk lbs / 2 ^ log2_spc_of nblk lbs := by
    rw [log2_bpc_of, pow_add, Nat.div_div_eq_div_mul]
  have h3 : nblk_chopped nblk lbs / 2 ^ log2_bps_of nblk lbs ≤ U32MAX := by
    have h := nsect_raw_le_u32 nblk lbs
    rwa [Nat.shiftRight_eq_div_pow] at h
  have h4 : nblk_chopped nblk lbs / 2 ^ log2_bps_of nblk lbs / 2 ^ log2_spc_of nblk lbs ≤
      U32MAX / 2 := by
    calc nblk_chopped nblk lbs / 2 ^ log2_bps_of nblk lbs / 2 ^ log2_spc_of nblk lbs
        ≤ U32MAX / 2 ^ log2_spc_of nblk lbs := Nat.div_le_div_right h3
      _ ≤ U32MAX / 2 ^ 1 :=
          Nat.div_le_div_left
            (Nat.pow_le_pow_right (by norm_num) (one_le_log2_spc nblk lbs)) (by norm_num)
      _ = U32MAX / 2 := by norm_num
  have h1 : Y / 2 ^ log2_bpc_of nblk lbs ≤ nblk_chopped nblk lbs / 2 ^ log2_bpc_of nblk lbs :=
    Nat.div_le_div_right hY
  rw [h2] at h1
  unfold U32MAX at h4
  unfold W32
  omega

theorem est_clusters_exact (nblk lbs : Nat) (h64 : nblk < W64)
    (hR : reserved_blocks_of nblk lbs ≤ nblk_chopped nblk lbs) :
    est_clusters_of nblk lbs =
      (nblk_chopped nblk lbs - reserved_blocks_of nblk lbs) >>>
        log2_bpc_of nblk lbs + 2 := by
  have hN : nblk_chopped nblk lbs < W64 := lt_of_le_of_lt (nblk_chopped_le nblk lbs) h64
  unfold est_clusters_of
  rw [sub64_exact (nblk_chopped nblk lbs) (reserved_blocks_of nblk lbs) hR hN]
  exact Nat.mod_eq_of_lt (div_bpc_add_two_lt nblk lbs _ (Nat.sub_le _ _))

theorem clusters_exact (nblk lbs : Nat) (h64 : nblk < W64)
    (H : reserved_blocks_of nblk lbs + root_blocks_min_of nblk lbs +
      fat_blocks_of nblk lbs * 2 ≤ nblk_chopped nblk lbs) :
    clusters_of nblk lbs =
      (nblk_chopped nblk lbs - reserved_blocks_of nblk lbs -
        root_blocks_min_of nblk lbs - fat_blocks_of nblk lbs * 2) >>>
        log2_bpc_of nblk lbs + 2 := by
  have hN : nblk_chopped nblk lbs < W64 := lt_of_le_of_lt (nblk_chopped_le nblk lbs) h64
  unfold clusters_of
  rw [sub64_exact (nblk_chopped nblk lbs) (reserved_blocks_of nblk lbs) (by omega) hN]
  rw [sub64_exact (nblk_chopped nblk lbs - reserved_blocks_of nblk lbs)
    (root_blocks_min_of nblk lbs) (by omega) (by omega)]
  rw [sub64_exact
    (nblk_chopped nblk lbs - reserved_blocks_of nblk lbs - root_blocks_min_of nblk lbs)
    (fat_blocks_of nblk lbs * 2) (by omega) (by omega)]
  exact Nat.mod_eq_of_lt (div_bpc_add_two_lt nblk lbs _ (by omega))

/-- Claim C6 (amended): whenever the device (after the 32-bit chop) is large
enough to hold the reserved region, the minimum root directory and both FAT
copies — so the final-cluster subtraction does not wrap — the final cluster
count is at most the estimate the FAT was sized from. -/
theorem claim_C6_final_le_estimate (nblk lbs : Nat) (fl : fs_layout)
    (h64 : nblk < W64)
    (H : reserved_blocks_of nblk lbs + root_blocks_min_of nblk lbs +
      fat_blocks_of nblk lbs * 2 ≤ nblk_chopped nblk lbs)
    (hc : calculate_layout nblk lbs = .ok fl) :
    fl.clusters ≤ est_clusters_of nblk lbs := by
  have h12 : ¬ 12 < lbs := by
    intro h
    rw [calculate_layout, if_pos h] at hc
    cases hc
  rw [calculate_layout_ok_of_le nblk lbs h12] at hc
  injection hc with hfl
  subst hfl
  show clusters_of nblk lbs ≤ est_clusters_of nblk lbs
  rw [clusters_exact nblk lbs h64 H, est_clusters_exact nblk lbs h64 (by omega)]
  rw [Nat.shiftRight_eq_div_pow, Nat.shiftRight_eq_div_pow]
  exact Nat.add_le_add_right (Nat.div_le_div_right (by omega)) 2

/-- Witness for C6 at the 512-byte-block, 8000-block device. -/
theorem claim_C6_witness : fl8000.clusters ≤ est_clusters_of 8000 9 :=
  claim_C6_final_le_estimate 8000 9 fl8000 (by decide) (by decide) (by rfl)

/-- Counterexample for C6 as stated: on a zero-block device (accepted by the
layout calculator, whose only check is the block size) the subtractions wrap,
and the final cluster count 4294967280 exceeds the estimate 1. -/
theorem claim_C6_counterexample :
    calculate_layout 0 9 = .ok fl0 ∧
    est_clusters_of 0 9 = 1 ∧ fl0.clusters = 4294967280 ∧
    ¬(fl0.clusters ≤ est_clusters_of 0 9) :=
  ⟨by rfl, by rfl, by rfl, by decide⟩

/-- Claim C7 (amended): if the chopped device covers reserved + minimum root
+ both FATs (no 64-bit wrap in the cluster subtraction) and the data-region
size `(clusters - 2) << log2_bpc` fits in 32 bits (no wrap in the C's
`unsigned` shift), then the final total equals
reserved + 2·FAT + root + (clusters − 2)·2^log2_bpc exactly and is at most
the requested block count. -/
theorem claim_C7_total_formatted_blocks (nblk lbs : Nat) (fl : fs_layout)
    (h64 : nblk < W64)
    (H : reserved_blocks_of nblk lbs + root_blocks_min_of nblk lbs +
      fat_blocks_of nblk lbs * 2 ≤ nblk_chopped nblk lbs)
    (H2 : (clusters_of nblk lbs - 2) * 2 ^ log2_bpc_of nblk lbs < W32)
    (hc : calculate_layout nblk lbs = .ok fl) :
    fl.logical_blocks = fl.reserved_blocks + 2 * fl.fat_blocks + fl.root_blocks +
      (fl.clusters - 2) * 2 ^ fl.log2_bpc ∧
    fl.logical_blocks ≤ nblk := by
  have h12 : ¬ 12 < lbs := by
    intro h
    rw [calculate_layout, if_pos h] at hc
    cases hc
  rw [calculate_layout_ok_of_le nblk lbs h12] at hc
  injection hc with hfl
  subst hfl
  show logical_blocks_of nblk lbs = reserved_blocks_of nblk lbs +
      2 * fat_blocks_of nblk lbs + root_blocks_of nblk lbs +
      (clusters_of nblk lbs - 2) * 2 ^ log2_bpc_of nblk lbs ∧
    logical_blocks_of nblk lbs ≤ nblk
  have hN : nblk_chopped nblk lbs < W64 := lt_of_le_of_lt (nblk_chopped_le nblk lbs) h64
  have hNle : nblk_chopped nblk lbs ≤ nblk := nblk_chopped_le nblk lbs
  have hclex := clusters_exact nblk lbs h64 H
  have hcl2 : 2 ≤ clusters_of nblk lbs := by rw [hclex]; exact Nat.le_add_left 2 _
  have hclW : clusters_of nblk lbs < W32 := by
    rw [hclex]
    exact div_bpc_add_two_lt nblk lbs _ (by omega)
  have hsub32 : sub32 (clusters_of nblk lbs) 2 = clusters_of nblk lbs - 2 :=
    sub32_exact (clusters_of nblk lbs) 2 hcl2 hclW
  have hD : ((clusters_of nblk lbs - 2) <<< log2_bpc_of nblk lbs) % W32 =
      (clusters_of nblk lbs - 2) * 2 ^ log2_bpc_of nblk lbs := by
    rw [Nat.shiftLeft_eq]
    exact Nat.mod_eq_of_lt H2
  have hDle : (clusters_of nblk lbs - 2) * 2 ^ log2_bpc_of nblk lbs ≤
      nblk_chopped nblk lbs - reserved_blocks_of nblk lbs -
        root_blocks_min_of nblk lbs - fat_blocks_of nblk lbs * 2 := by
    have hq : clusters_of nblk lbs - 2 =
        (nblk_chopped nblk lbs - reserved_blocks_of nblk lbs -
          root_blocks_min_of nblk lbs - fat_blocks_of nblk lbs * 2) /
          2 ^ log2_bpc_of nblk lbs := by
      rw [hclex, Nat.shiftRight_eq_div_pow]
      exact Nat.add_sub_cancel _ 2
    rw [hq]
    exact Nat.div_mul_le_self _ _
  by_cases hT : classify_fat_type (nsect_of nblk lbs) = UFAT_TYPE_FAT32
  · have hroot0 : root_blocks_min_of nblk lbs = 0 := by
      unfold root_blocks_min_of
      rw [if_neg (by simp [hT])]
    have hrootf : root_blocks_of nblk lbs = 0 := by
      unfold root_blocks_of
      rw [if_neg (by simp [hT])]
      exact hroot0
    have hlog : logical_blocks_of nblk lbs =
        (clusters_of nblk lbs - 2) * 2 ^ log2_bpc_of nblk lbs +
          fat_blocks_of nblk lbs * 2 + reserved_blocks_of nblk lbs + 0 := by
      unfold logical_blocks_of
      rw [hsub32, hD, hrootf]
      apply Nat.mod_eq_of_lt
      have := hDle
      rw [hroot0] at this
      omega
    refine ⟨?_, ?_⟩
    · rw [hlog, hrootf]
      ring
    · rw [hlog]
      have hd0 := hDle
      rw [hroot0] at hd0
      omega
  · have hrootf : root_blocks_of nblk lbs =
        nblk_chopped nblk lbs - reserved_blocks_of nblk lbs -
          fat_blocks_of nblk lbs * 2 -
          (clusters_of nblk lbs - 2) * 2 ^ log2_bpc_of nblk lbs := by
      unfold root_blocks_of
      rw [if_pos hT]
      rw [hsub32, hD]
      rw [sub64_exact (nblk_chopped nblk lbs) (reserved_blocks_of nblk lbs)
        (by omega) hN]
      rw [sub64_exact (nblk_chopped nblk lbs - reserved_blocks_of nblk lbs)
        (fat_blocks_of nblk lbs * 2) (by omega) (by omega)]
      rw [sub64_exact
        (nblk_chopped nblk lbs - reserved_blocks_of nblk lbs - fat_blocks_of nblk lbs * 2)
        ((clusters_of nblk lbs - 2) * 2 ^ log2_bpc_of nblk lbs) (by omega) (by omega)]
    have hlog : logical_blocks_of nblk lbs = nblk_chopped nblk lbs := by
      unfold logical_blocks_of
      rw [hsub32, hD, hrootf]
      rw [Nat.mod_eq_of_lt (by omega)]
      omega
    refine ⟨?_, ?_⟩
    · rw [hlog, hrootf]
      omega
    · rw [hlog]
      exact hNle

/-- Witness for C7 at the 512-byte-block, 8000-block device. -/
theorem claim_C7_witness :
    fl8000.logical_blocks = fl8000.reserved_blocks + 2 * fl8000.fat_blocks +
      fl8000.root_blocks + (fl8000.clusters - 2) * 2 ^ fl8000.log2_bpc ∧
    fl8000.logical_blocks ≤ 8000 :=
  claim_C7_total_formatted_blocks 8000 9 fl8000 (by decide) (by decide) (by decide) (by rfl)

/-- Counterexample for C7 as stated: on a zero-block device the wrapping
subtractions make the stored total 0 while the exact region sum is
18446744078004518912, so the "region sizes sum exactly to the total" part
of the claim fails. -/
theorem claim_C7_counterexample :
    calculate_layout 0 9 = .ok fl0 ∧
    fl0.logical_blocks = 0 ∧
    fl0.reserved_blocks + 2 * fl0.fat_blocks + fl0.root_blocks +
      (fl0.clusters - 2) * 2 ^ fl0.log2_bpc = 18446744078004518912 ∧
    ¬(fl0.logical_blocks = fl0.reserved_blocks + 2 * fl0.fat_blocks + fl0.root_blocks +
      (fl0.clusters - 2) * 2 ^ fl0.log2_bpc) :=
  ⟨by rfl, by rfl, by decide, by decide⟩

end Ufat
